import Mathlib

/-!
Verification of the ketch AppReconciler (internal/controllers/app_controller.go)
against its natural-language specification.

The Go source is shallowly embedded: each relevant function becomes a pure
Lean function over explicit inputs.  Cluster API calls (Get/List/Patch/Update,
the helm client, the HPA list) are modelled by passing their results in as
parameters: a successful call carries its result, a failing call is `none` or
a `false` success flag.  Event emission to the external event recorder is a
fire-and-forget side effect; where a claim depends on it the emitted events
are accumulated in the return value, otherwise it is omitted.  Machine
integers (int32 replica counters, int quota limits) are modelled as Int; the
source performs no arithmetic that can overflow at the modelled call sites.
-/

namespace Ketch

/-! ## Pod model (the fragment of k8s core/v1 used by checkPodStatus) -/

/-- PodPhase mirrors k8s core/v1 PodPhase values used by the source. -/
inductive PodPhase
  | pending
  | running
  | succeeded
  | failed
  | unknownPhase
deriving DecidableEq, Repr

/-- ConditionStatus mirrors k8s core/v1 ConditionStatus (True, False, Unknown). -/
inductive ConditionStatus
  | condTrue
  | condFalse
  | condUnknown
deriving DecidableEq, Repr

/-- PodCondition keeps the fields of core/v1 PodCondition that the source reads. -/
structure PodCondition where
  condType : String
  status : ConditionStatus
deriving DecidableEq, Repr

/-- Pod keeps the status fields of core/v1 Pod that checkPodStatus reads. -/
structure Pod where
  phase : PodPhase
  conditions : List PodCondition
deriving DecidableEq, Repr

/-- Error outcomes of checkPodStatus, one per distinct return site in the source. -/
inductive CheckPodError
  | nilClient
  | invalidArguments
  | listError
  | podsNotRunning
  | podsNotHealthy
deriving DecidableEq, Repr

/-- Embeds the pod loop of checkPodStatus (app_controller.go lines 654-670):
for each pod in list order, a Succeeded pod returns success immediately, a
non-Running pod returns the not-running error, and the first condition whose
status is not True returns the not-healthy error; otherwise the scan
continues to the next pod. -/
def checkPods : List Pod → Option CheckPodError
  | [] => none
  | p :: rest =>
    if p.phase = PodPhase.succeeded then none
    else if p.phase ≠ PodPhase.running then some CheckPodError.podsNotRunning
    else
      match p.conditions.find? (fun c => c.status != ConditionStatus.condTrue) with
      | some _ => some CheckPodError.podsNotHealthy
      | none => checkPods rest

/-- Embeds checkPodStatus (app_controller.go lines 631-671).  The pod list
returned by the cluster for the label selector {group/app-name=appName,
group/app-deployment-version=depVersion} is passed as listResult; a failing
List call is listResult = none.  clientNil models the nil-client guard. -/
def checkPodStatus (group appName : String) (depVersion : Int) (clientNil : Bool)
    (listResult : Option (List Pod)) : Option CheckPodError :=
  if clientNil then some CheckPodError.nilClient
  else if appName.length = 0 ∨ depVersion ≤ 0 then some CheckPodError.invalidArguments
  else
    match listResult with
    | none => some CheckPodError.listError
    | some pods => checkPods pods

/-- A pod that passes the per-pod health test of the scan: Running phase and
every condition status True. -/
def podHealthyRunning (p : Pod) : Prop :=
  p.phase = PodPhase.running ∧ ∀ c ∈ p.conditions, c.status = ConditionStatus.condTrue

instance (p : Pod) : Decidable (podHealthyRunning p) := by
  unfold podHealthyRunning; infer_instance

/-- Characterisation of the scan: success exactly when every pod strictly
before the first Succeeded pod (all pods, when none has Succeeded) is Running
with all conditions True. -/
theorem checkPods_eq_none_iff (pods : List Pod) :
    checkPods pods = none ↔
      ∀ p ∈ pods.takeWhile (fun q => q.phase != PodPhase.succeeded), podHealthyRunning p := by
  induction pods with
  | nil => simp [checkPods]
  | cons p rest ih =>
    by_cases hs : p.phase = PodPhase.succeeded
    · simp [checkPods, hs, List.takeWhile]
    · have hbne : (p.phase != PodPhase.succeeded) = true := by
        simp [bne_iff_ne, hs]
      by_cases hr : p.phase = PodPhase.running
      · rcases hfind : p.conditions.find? (fun c => c.status != ConditionStatus.condTrue) with _ | c
        · have hall : ∀ c ∈ p.conditions, c.status = ConditionStatus.condTrue := by
            intro c hc
            have := List.find?_eq_none.mp hfind c hc
            simpa [bne_iff_ne] using this
          have hph : podHealthyRunning p := ⟨hr, hall⟩
          simp only [checkPods, if_neg hs, if_neg (by simp [hr] : ¬p.phase ≠ PodPhase.running),
            hfind]
          rw [ih]
          constructor
          · intro h q hq
            rw [List.takeWhile_cons, if_pos hbne] at hq
            rcases List.mem_cons.mp hq with hq | hq
            · exact hq ▸ hph
            · exact h q hq
          · intro h q hq
            exact h q (by rw [List.takeWhile_cons, if_pos hbne]; exact List.mem_cons_of_mem _ hq)
        · have hcstat : c.status ≠ ConditionStatus.condTrue := by
            have := List.find?_some hfind
            simpa [bne_iff_ne] using this
          have hcm : c ∈ p.conditions := List.mem_of_find?_eq_some hfind
          simp only [checkPods, if_neg hs, if_neg (by simp [hr] : ¬p.phase ≠ PodPhase.running),
            hfind]
          constructor
          · intro h; cases h
          · intro h
            have hph := h p (by
              rw [List.takeWhile_cons, if_pos hbne]; exact List.mem_cons_self _ _)
            exact absurd (hph.2 c hcm) hcstat
      · simp only [checkPods, if_neg hs, if_pos (by simp [hr] : p.phase ≠ PodPhase.running)]
        constructor
        · intro h; cases h
        · intro h
          have hph := h p (by
            rw [List.takeWhile_cons, if_pos hbne]; exact List.mem_cons_self _ _)
          exact absurd hph.1 hr

/-! ## RolloutWatcher model (watchFunc, app_controller.go lines 415-511)

The watcher loop is embedded as a step function over an explicit state.
Event emission to the recorder and the three change-tracking counters
(oldUpdatedReplicas, oldReadyUnits, oldPendingTermination) only drive event
messages, never control flow, and are omitted.  Each loop iteration consumes:
the pod list the health probe would observe, the select arm that fires, and
the result of the deployment re-fetch at the bottom of the loop. -/

/-- Constant DeploymentProgressing from the source. -/
def DeploymentProgressing : String := "Progressing"

/-- Constant deadlineExeceededProgressCond from the source (typo kept). -/
def deadlineExeceededProgressCond : String := "ProgressDeadlineExceeded"

/-- DepCondition keeps the fields of apps/v1 DeploymentCondition read by the loop. -/
structure DepCondition where
  condType : String
  reason : String
deriving DecidableEq, Repr

/-- DepStatus keeps the fields of apps/v1 DeploymentStatus read by the loop. -/
structure DepStatus where
  updatedReplicas : Int
  unavailableReplicas : Int
  replicas : Int
  conditions : List DepCondition
deriving DecidableEq, Repr

/-- Embeds the progress-deadline scan at the top of the loop (lines 432-439). -/
def hasDeadlineExceeded (conds : List DepCondition) : Bool :=
  conds.any (fun c =>
    c.condType == DeploymentProgressing && c.reason == deadlineExeceededProgressCond)

/-- Loop state: the deployment status last fetched and whether the healthcheck
grace timer has been armed (healthcheckTimeout non-nil in the source). -/
structure WatchState where
  dep : DepStatus
  healthArmed : Bool
deriving DecidableEq, Repr

/-- The select arm that fires in one iteration (lines 474-496).  watchMsg
carries the channel open flag and whether the event name has the deployment
name as prefix; healthTimeout can fire only while the grace timer is armed. -/
inductive SelectEvent
  | pollTick
  | watchMsg (isOpen : Bool) (matchesDep : Bool)
  | healthTimeout
  | overallTimeout
  | cancelledCtx
deriving DecidableEq, Repr

/-- Reason the watcher run ended, one per return site of watchFunc. -/
inductive TermReason
  | complete
  | progressDeadline
  | healthTimeoutFail
  | overallTimeoutFail
  | cancelledRun
  | getError
deriving DecidableEq, Repr

/-- Outcome of a watchFunc run: the termination reason, whether the event
stream stop function was invoked, and whether the deferred registry cleanup
ran. -/
structure WatchOutcome where
  reason : TermReason
  stopCalledFlag : Bool
  cleanupCalledFlag : Bool
deriving DecidableEq, Repr

/-- Every error return site of watchFunc returns without calling stopFunc;
the deferred cleanup always runs. -/
def watchFinish (r : TermReason) : WatchOutcome := ⟨r, false, true⟩

/-- The break path of the loop (lines 506-510): outcome event, stopFunc(),
return nil; the deferred cleanup also runs. -/
def watchComplete : WatchOutcome := ⟨TermReason.complete, true, true⟩

/-- Embeds the healthcheck-arming step (lines 445-452): while the grace timer
is not armed and updated replicas reached the spec count, the health predicate
runs and, on success, arms the timer. -/
def armAfter (group appName : String) (version specReplicas : Int) (s : WatchState)
    (pods : Option (List Pod)) : Bool :=
  if !s.healthArmed && (s.dep.updatedReplicas == specReplicas) then
    (checkPodStatus group appName version false pods).isNone
  else s.healthArmed

/-- Result of one loop iteration: continue with a new state, or finish. -/
inductive WatchStep
  | cont (s : WatchState)
  | done (o : WatchOutcome)
deriving DecidableEq, Repr

/-- Embeds the break condition of the loop (lines 469-472): readyUnits equal
to spec replicas and total replicas equal to spec replicas, with readyUnits
computed at line 454 as updated minus unavailable replicas. -/
def rolloutComplete (specReplicas : Int) (d : DepStatus) : Bool :=
  (d.updatedReplicas - d.unavailableReplicas == specReplicas) && (d.replicas == specReplicas)

/-- Embeds one iteration of the watchFunc loop (lines 431-504): the
progress-deadline scan, the healthcheck arming, the completion break, the
select, and the deployment re-fetch.  A closed watch channel (isOpen = false)
only breaks the select in the source, so it reaches the re-fetch exactly as
the poll tick does.  The arming step textually precedes the break check in
the source but its result is only read on the continue path, so it is folded
into that path here. -/
def watchIter (group appName : String) (version specReplicas : Int) (s : WatchState)
    (pods : Option (List Pod)) (ev : SelectEvent) (getResult : Option DepStatus) : WatchStep :=
  if hasDeadlineExceeded s.dep.conditions then WatchStep.done (watchFinish TermReason.progressDeadline)
  else if rolloutComplete specReplicas s.dep then WatchStep.done watchComplete
  else
    match ev with
    | SelectEvent.healthTimeout => WatchStep.done (watchFinish TermReason.healthTimeoutFail)
    | SelectEvent.overallTimeout => WatchStep.done (watchFinish TermReason.overallTimeoutFail)
    | SelectEvent.cancelledCtx => WatchStep.done (watchFinish TermReason.cancelledRun)
    | _ =>
      match getResult with
      | none => WatchStep.done (watchFinish TermReason.getError)
      | some d => WatchStep.cont ⟨d, armAfter group appName version specReplicas s pods⟩

/-- The inputs one iteration consumes. -/
structure WatchInput where
  pods : Option (List Pod)
  ev : SelectEvent
  getResult : Option DepStatus
deriving Repr

/-- Runs the watcher loop over a finite trace of iteration inputs; none means
the trace ended with the loop still running. -/
def runWatch (group appName : String) (version specReplicas : Int) :
    WatchState → List WatchInput → Option WatchOutcome
  | _, [] => none
  | s, i :: rest =>
    match watchIter group appName version specReplicas s i.pods i.ev i.getResult with
    | WatchStep.done o => some o
    | WatchStep.cont s2 => runWatch group appName version specReplicas s2 rest

/-- Every finished iteration yields an outcome in which stop was invoked
exactly on completion and the deferred cleanup ran. -/
theorem watchIter_done_shape (group appName : String) (version specReplicas : Int)
    (s : WatchState) (pods : Option (List Pod)) (ev : SelectEvent)
    (getResult : Option DepStatus) (o : WatchOutcome)
    (h : watchIter group appName version specReplicas s pods ev getResult = WatchStep.done o) :
    (o.stopCalledFlag = true ↔ o.reason = TermReason.complete) ∧ o.cleanupCalledFlag = true := by
  unfold watchIter at h
  split at h
  · cases h; simp [watchFinish]
  · split at h
    · cases h; simp [watchComplete]
    · split at h
      · cases h; simp [watchFinish]
      · cases h; simp [watchFinish]
      · cases h; simp [watchFinish]
      · split at h
        · cases h; simp [watchFinish]
        · cases h

/-! ## Framework resolution and quota check (reconcile, lines 229-254) -/

/-- FrameworkData keeps the Framework fields read by reconcile and deleteChart:
whether Status.Namespace is non-nil, the Status.Apps member list, and the
Spec.AppQuotaLimit pointer (none models a nil limit). -/
structure FrameworkData where
  name : String
  namespaceLinked : Bool
  apps : List String
  quota : Option Int
deriving DecidableEq, Repr

/-- Modelled from the spec: Framework.HasApp lives in the ketchv1 API package,
which is not part of the analysed sources.  Per the spec a Framework holds a
set of member application names and the quota check is skipped when the
application already is a member; reconcile appends to Status.Apps exactly when
HasApp is false, so HasApp is membership of the name in Status.Apps. -/
def hasApp (f : FrameworkData) (appName : String) : Bool :=
  f.apps.contains appName

/-- Error outcomes of the reconcile pass, one per distinct early-return site
that the embedded fragments reach. -/
inductive RecErr
  | frameworkNotFound
  | getReferenceError
  | notLinked
  | templateError
  | quotaExceeded
  | noCanaryDeployment
  | stillConverging
  | appUpdateError
  | hpaListError
  | canaryUpdateError
  | chartError
deriving DecidableEq, Repr

/-- The ReferenceError class of the error taxonomy: framework missing,
framework unlinked to a namespace, or app quota exceeded. -/
def isReferenceError : RecErr → Bool
  | RecErr.frameworkNotFound => true
  | RecErr.notLinked => true
  | RecErr.quotaExceeded => true
  | _ => false

/-- Embeds the quota condition at line 250: the app is not yet a member, the
limit pointer is non-nil, the member count reached the limit, and the limit
is not the unlimited sentinel -1. -/
def quotaBlocked (f : FrameworkData) (appName : String) : Bool :=
  !hasApp f appName &&
    (match f.quota with
     | none => false
     | some q => decide ((f.apps.length : Int) ≥ q) && !(q == -1))

/-- Embeds the framework-resolution prefix of reconcile (lines 229-254):
framework Get (none models not-found), reference.GetReference (refOk),
the Status.Namespace nil check, the chart-template configmap read (tplOk),
and the quota check, in source order. -/
def resolveFramework (appName : String) (fw : Option FrameworkData)
    (refOk tplOk : Bool) : Option RecErr :=
  match fw with
  | none => some RecErr.frameworkNotFound
  | some f =>
    if !refOk then some RecErr.getReferenceError
    else if !f.namespaceLinked then some RecErr.notLinked
    else if !tplOk then some RecErr.templateError
    else if quotaBlocked f appName then some RecErr.quotaExceeded
    else none

/-! ## Canary step (reconcile, lines 279-334) -/

/-- CanarySpec keeps the fields the controller reads: the active flag, the
start time (the source dereferences a non-nil pointer), and the current
traffic-weight step.  The empty value resets all fields. -/
structure CanarySpec where
  active : Bool := false
  started : Int := 0
  stepTimeInteval : Int := 0
  currentStep : Int := 0
deriving DecidableEq, Repr

/-- One versioned deployment entry of an App spec; only the version number is
read by the embedded code paths. -/
structure DeploymentSpec where
  version : Int
deriving DecidableEq, Repr

/-- App keeps the spec fields the canary step reads and mutates. -/
structure App where
  name : String
  deployments : List DeploymentSpec
  canary : CanarySpec
deriving DecidableEq, Repr

/-- Embeds timeoutExpired (lines 626-628): started plus the reconcile timeout
is strictly before now. -/
def timeoutExpired (reconcileTimeout started now : Int) : Bool :=
  decide (started + reconcileTimeout < now)

/-- Modelled from the spec: App.DoRollback lives in the ketchv1 API package,
which is not part of the analysed sources.  Per the spec the rollback
discards the canary deployment (the most recently added entry) and resets
the CanarySpec to the inactive empty value. -/
def doRollback (app : App) : App :=
  { app with deployments := app.deployments.dropLast, canary := {} }

/-- Modelled from the spec: App.DoCanary lives in the ketchv1 API package,
which is not part of the analysed sources.  Per the spec a step on an active
canary advances it by one weighted traffic step (replica scaling of
HPA-excluded processes is out of this model); on an inactive spec there is no
step to take and the app is unchanged. -/
def doCanary (app : App) : App :=
  if app.canary.active then
    { app with canary := { app.canary with currentStep := app.canary.currentStep + 1 } }
  else app

/-- Result of the canary block: the app state after the block, the error of
the early return (none when the block fell through), the useTimeout flag of
the transient-retry return, and whether a rollback was persisted by the
Update call at line 302. -/
structure CanaryResult where
  app : App
  err : Option RecErr
  useTimeout : Bool
  rollbackPersisted : Bool
deriving DecidableEq, Repr

/-- Embeds the tail of the canary block shared by the healthy and the
rolled-back paths (lines 309-327): the HPA list call, DoCanary, and the
app Update. -/
def canaryTail (app : App) (persisted : Bool) (hpaOk finalUpdateOk : Bool) : CanaryResult :=
  if !hpaOk then ⟨app, some RecErr.hpaListError, false, persisted⟩
  else
    let a2 := doCanary app
    if !finalUpdateOk then ⟨a2, some RecErr.canaryUpdateError, false, persisted⟩
    else ⟨a2, none, false, persisted⟩

/-- Embeds the canary block of reconcile (lines 280-327), entered when the
canary spec is active: the two-deployment precondition with its canary-spec
reset, the health probe on the second deployment version, the transient
retry while the timeout has not expired, the rollback with its persisting
Update once it has, and the shared tail. -/
def canaryStep (group : String) (reconcileTimeout : Int) (app : App)
    (pods : Option (List Pod)) (now : Int)
    (rollbackUpdateOk hpaOk finalUpdateOk : Bool) : CanaryResult :=
  if app.deployments.length ≤ 1 then
    ⟨{ app with canary := {} }, some RecErr.noCanaryDeployment, false, false⟩
  else
    match checkPodStatus group app.name
        (((app.deployments.get? 1).map DeploymentSpec.version).getD 0) false pods with
    | some _ =>
      if !timeoutExpired reconcileTimeout app.canary.started now then
        ⟨app, some RecErr.stillConverging, true, false⟩
      else
        let a1 := doRollback app
        if !rollbackUpdateOk then ⟨a1, some RecErr.appUpdateError, false, false⟩
        else canaryTail a1 true hpaOk finalUpdateOk
    | none => canaryTail app false hpaOk finalUpdateOk

/-- Outcome of the canary-then-chart phase of reconcile: the app state, the
returned error, whether helm UpdateChart was invoked, and the useTimeout
flag. -/
structure DeployOutcome where
  app : App
  err : Option RecErr
  chartUpdated : Bool
  useTimeout : Bool
deriving DecidableEq, Repr

/-- Embeds the flow from the canary block to the helm UpdateChart call
(lines 280-334): any error inside the canary block returns before the chart
is applied; otherwise UpdateChart runs (chartOk models its success). -/
def reconcileDeploy (group : String) (reconcileTimeout : Int) (app : App)
    (pods : Option (List Pod)) (now : Int)
    (rollbackUpdateOk hpaOk finalUpdateOk chartOk : Bool) : DeployOutcome :=
  if app.canary.active then
    match canaryStep group reconcileTimeout app pods now rollbackUpdateOk hpaOk finalUpdateOk with
    | ⟨a, some e, ut, _⟩ => ⟨a, some e, false, ut⟩
    | ⟨a, none, ut, _⟩ =>
      ⟨a, if chartOk then none else some RecErr.chartError, true, ut⟩
  else ⟨app, if chartOk then none else some RecErr.chartError, true, false⟩

/-! ## Outer Reconcile flow and conflict handling (lines 112-180, 211-225)

Errors are modelled as wrapping chains: a list of tags, outermost first,
where each fmt.Errorf %w wrap adds an element.  In the dependency versions
the source builds against, k8sErrors.IsConflict inspects only the error value
it is given and does not unwrap, which is why appReconcileResult keeps its
own unwrap loop (the source comment at lines 214-216 states this). -/

/-- A single error value in a wrapping chain: a Conflict StatusError or any
other error. -/
inductive ErrTag
  | conflict
  | otherErr
deriving DecidableEq, Repr

/-- An error as a wrapping chain, outermost value first; [] is no error at
that level and never occurs as a returned error. -/
abbrev ErrChain := List ErrTag

/-- Embeds appReconcileResult.isConflictError (lines 211-225): unwrap the
chain one level at a time, returning true at the first level on which
IsConflict matches. -/
def isConflictError : ErrChain → Bool
  | [] => false
  | t :: rest => if t == ErrTag.conflict then true else isConflictError rest

/-- Embeds the direct k8sErrors.IsConflict test applied to the status-update
error at line 159: it sees only the outermost error value. -/
def isConflictDirect : ErrChain → Bool
  | ErrTag.conflict :: _ => true
  | _ => false

/-- Severity of an event handed to the recorder. -/
inductive EvKind
  | normalEv
  | warningEv
deriving DecidableEq, Repr

/-- The user-visible effects of one Reconcile pass past the delete gate: the
events emitted in order, the Scheduled condition written into the in-memory
app status (status flag and the error the message came from), and the error
the pass returned. -/
structure OuterEffects where
  events : List EvKind
  condition : Option (Bool × Option ErrChain)
  returnedErr : Option ErrChain
deriving DecidableEq, Repr

/-- Embeds the post-reconcile outcome handling of Reconcile (lines 133-180):
an inner conflict returns before any event or condition write; otherwise one
outcome event is emitted (Warning with condition False on failure, Normal
with condition True on success), then the status Update runs; a conflicting
Update returns with no further event, any other failing Update emits one more
Warning event.  innerErr is the reconcile result error, updateErr the status
Update error. -/
def reconcileOuter (innerErr : Option ErrChain) (updateErr : Option ErrChain) : OuterEffects :=
  match innerErr with
  | some e =>
    if isConflictError e then ⟨[], none, some e⟩
    else
      match updateErr with
      | some ue =>
        if isConflictDirect ue then ⟨[EvKind.warningEv], some (false, some e), some ue⟩
        else ⟨[EvKind.warningEv, EvKind.warningEv], some (false, some e), some ue⟩
      | none => ⟨[EvKind.warningEv], some (false, some e), some e⟩
  | none =>
    match updateErr with
    | some ue =>
      if isConflictDirect ue then ⟨[EvKind.normalEv], some (true, none), some ue⟩
      else ⟨[EvKind.normalEv, EvKind.warningEv], some (true, none), some ue⟩
    | none => ⟨[EvKind.normalEv], some (true, none), none⟩

/-! ## Delete path (deleteChart, lines 673-716) -/

/-- Error outcomes of deleteChart, one per return site. -/
inductive DeleteErr
  | listError
  | helmFactoryError
  | deleteChartError
  | patchError
  | updateError
deriving DecidableEq, Repr

/-- Effects of one deleteChart pass: whether the finalizer removal was
persisted by the final Update, whether the helm chart was uninstalled,
whether the member-list patch was applied, and the returned error. -/
structure DeleteOutcome where
  finalizerRemoved : Bool
  chartUninstalled : Bool
  memberRemoved : Bool
  err : Option DeleteErr
deriving DecidableEq, Repr

/-- Embeds deleteChart (lines 673-716).  frameworks is the framework List
result (none models a failing List); the loop body runs for the first
framework owning the app and breaks.  uninstallWanted models the
uninstallHelmChart annotation policy, helmOk the helm factory, deleteOk the
DeleteChart call, patchOk the member-list status patch, and updateOk the
final Update that persists the finalizer removal. -/
def deleteChart (appName : String) (frameworks : Option (List FrameworkData))
    (uninstallWanted helmOk deleteOk patchOk updateOk : Bool) : DeleteOutcome :=
  match frameworks with
  | none => ⟨false, false, false, some DeleteErr.listError⟩
  | some fs =>
    match fs.find? (fun f => hasApp f appName) with
    | some _ =>
      if uninstallWanted && !helmOk then ⟨false, false, false, some DeleteErr.helmFactoryError⟩
      else if uninstallWanted && !deleteOk then ⟨false, false, false, some DeleteErr.deleteChartError⟩
      else if !patchOk then ⟨false, uninstallWanted, false, some DeleteErr.patchError⟩
      else if !updateOk then ⟨false, uninstallWanted, true, some DeleteErr.updateError⟩
      else ⟨true, uninstallWanted, true, none⟩
    | none =>
      if !updateOk then ⟨false, false, false, some DeleteErr.updateError⟩
      else ⟨true, false, false, none⟩

/-! ## Claim C1: checkPodStatus success condition -/

/-- A Running pod with a condition whose status is not True. -/
def c1BadPod : Pod := ⟨PodPhase.running, [⟨"Ready", ConditionStatus.condFalse⟩]⟩

/-- A pod in Succeeded phase. -/
def c1SucceededPod : Pod := ⟨PodPhase.succeeded, []⟩

/-- C1 counterexample: the claim says a Succeeded pod yields success
regardless of the state or list position of the other pods, but with the pod
list [Running-with-false-condition, Succeeded] the source returns the
not-healthy error from the first pod before ever reaching the Succeeded one. -/
theorem checkPodStatus_succeeded_after_bad_pod :
    c1SucceededPod ∈ [c1BadPod, c1SucceededPod] ∧
    c1SucceededPod.phase = PodPhase.succeeded ∧
    checkPodStatus "theketch.io" "sample" 1 false (some [c1BadPod, c1SucceededPod]) =
      some CheckPodError.podsNotHealthy := by
  refine ⟨by decide, by decide, ?_⟩
  rfl

/-- C1 (amended): for a non-empty app name, a positive version and a live
client, checkPodStatus succeeds exactly when every pod strictly before the
first Succeeded pod in list order (every pod, when none has Succeeded) is in
the Running phase with all of its status conditions True; a Succeeded pod
still counts as healthy whatever its own conditions are, but only shields the
pods listed after it, not before it. -/
theorem checkPodStatus_success_iff_scan (group appName : String) (version : Int)
    (pods : List Pod) (hname : appName.length ≠ 0) (hver : 0 < version) :
    checkPodStatus group appName version false (some pods) = none ↔
      ∀ p ∈ pods.takeWhile (fun q => q.phase != PodPhase.succeeded), podHealthyRunning p := by
  unfold checkPodStatus
  rw [if_neg (by simp), if_neg (by push_neg; exact ⟨hname, by omega⟩)]
  exact checkPods_eq_none_iff pods

/-- C1 witness: the amended theorem applied to a single healthy Running pod. -/
theorem checkPodStatus_success_iff_scan_witness :
    checkPodStatus "theketch.io" "sample" 1 false
      (some [⟨PodPhase.running, [⟨"Ready", ConditionStatus.condTrue⟩]⟩]) = none :=
  (checkPodStatus_success_iff_scan "theketch.io" "sample" 1
    [⟨PodPhase.running, [⟨"Ready", ConditionStatus.condTrue⟩]⟩]
    (by decide) (by decide)).mpr (by decide)

/-! ## Claim C9: empty pod list is healthy -/

/-- C9: with valid arguments and a live client, an empty pod list for the
label selector makes checkPodStatus return success: the pod loop never runs
and the function falls through to its final nil return. -/
theorem checkPodStatus_empty_pod_list (group appName : String) (version : Int)
    (hname : appName.length ≠ 0) (hver : 0 < version) :
    checkPodStatus group appName version false (some []) = none := by
  unfold checkPodStatus
  rw [if_neg (by simp), if_neg (by push_neg; exact ⟨hname, by omega⟩)]
  rfl

/-- C9 witness: the theorem applied at a concrete app name and version. -/
theorem checkPodStatus_empty_pod_list_witness :
    checkPodStatus "theketch.io" "sample" 3 false (some []) = none :=
  checkPodStatus_empty_pod_list "theketch.io" "sample" 3 (by decide) (by decide)

/-! ## Claim C2: rollout completion condition -/

/-- C2: for a deployment status satisfying the k8s status invariants that the
unavailable count is non-negative and the updated count never exceeds the
total count, and not carrying a deadline-exceeded progress condition, one
watcher iteration declares Terminal-Complete exactly when updated replicas,
ready units (updated minus unavailable) and total replicas all equal the
desired spec replica count; in particular no such status with updated
replicas different from the desired count completes. -/
theorem watch_complete_iff_replicas (group appName : String) (version specReplicas : Int)
    (s : WatchState) (pods : Option (List Pod)) (ev : SelectEvent)
    (getResult : Option DepStatus)
    (hdl : hasDeadlineExceeded s.dep.conditions = false)
    (hua : 0 ≤ s.dep.unavailableReplicas)
    (hur : s.dep.updatedReplicas ≤ s.dep.replicas) :
    watchIter group appName version specReplicas s pods ev getResult =
        WatchStep.done watchComplete ↔
      (s.dep.updatedReplicas = specReplicas ∧
       s.dep.updatedReplicas - s.dep.unavailableReplicas = specReplicas ∧
       s.dep.replicas = specReplicas) := by
  unfold watchIter
  rw [if_neg (by simp [hdl])]
  by_cases hc : rolloutComplete specReplicas s.dep
  · rw [if_pos hc]
    unfold rolloutComplete at hc
    simp only [Bool.and_eq_true, beq_iff_eq] at hc
    exact ⟨fun _ => ⟨by omega, hc.1, hc.2⟩, fun _ => rfl⟩
  · rw [if_neg hc]
    constructor
    · intro h
      exfalso
      cases ev <;> cases getResult <;> simp [watchFinish, watchComplete] at h
    · rintro ⟨h1, h2, h3⟩
      exact absurd (by unfold rolloutComplete; simp [h2, h3]) hc

/-- C2 witness: with desired replicas 3, a status with updated replicas 3 but
one unavailable unit does not complete. -/
theorem watch_complete_iff_replicas_witness :
    watchIter "theketch.io" "sample" 1 3 ⟨⟨3, 1, 3, []⟩, false⟩ (some [])
      SelectEvent.pollTick (some ⟨3, 1, 3, []⟩) ≠ WatchStep.done watchComplete := by
  intro hc
  have h := (watch_complete_iff_replicas "theketch.io" "sample" 1 3 ⟨⟨3, 1, 3, []⟩, false⟩
    (some []) SelectEvent.pollTick (some ⟨3, 1, 3, []⟩)
    (by decide) (by decide) (by decide)).mp hc
  exact absurd h.2.1 (by decide)

/-! ## Claim C8: closed watch channel degrades to polling -/

/-- C8: an iteration in which the select receives the closed-channel signal
(isOpen = false) does not terminate the watcher: with no deadline-exceeded
condition, the rollout not yet complete and a successful workload re-fetch,
the iteration continues the loop with the freshly fetched status, exactly as
a poll tick does; the break in the source only exits the inner select. -/
theorem watchIter_channel_closed_continues (group appName : String)
    (version specReplicas : Int) (s : WatchState) (pods : Option (List Pod))
    (m : Bool) (d : DepStatus)
    (hdl : hasDeadlineExceeded s.dep.conditions = false)
    (hnc : rolloutComplete specReplicas s.dep = false) :
    watchIter group appName version specReplicas s pods (SelectEvent.watchMsg false m)
        (some d) =
      WatchStep.cont ⟨d, armAfter group appName version specReplicas s pods⟩ := by
  unfold watchIter
  rw [if_neg (by simp [hdl]), if_neg (by simp [hnc])]

/-- C8 witness: the theorem applied at a concrete pre-completion state. -/
theorem watchIter_channel_closed_continues_witness :
    watchIter "theketch.io" "sample" 1 3 ⟨⟨1, 1, 1, []⟩, false⟩ (some [])
        (SelectEvent.watchMsg false true) (some ⟨2, 1, 2, []⟩) =
      WatchStep.cont ⟨⟨2, 1, 2, []⟩,
        armAfter "theketch.io" "sample" 1 3 ⟨⟨1, 1, 1, []⟩, false⟩ (some [])⟩ :=
  watchIter_channel_closed_continues "theketch.io" "sample" 1 3 ⟨⟨1, 1, 1, []⟩, false⟩
    (some []) true ⟨2, 1, 2, []⟩ (by decide) (by decide)

/-! ## Claim C10: the event stream is stopped only on completion -/

/-- C10: however a watcher run over any finite iteration trace terminates,
the event stream stop function was invoked exactly when the run reached
Terminal-Complete; on every error termination (progress deadline, healthcheck
timeout, overall timeout, workload re-fetch error, external cancellation) the
stream is not stopped, while the deferred registry cleanup always ran. -/
theorem runWatch_stop_only_on_complete (group appName : String)
    (version specReplicas : Int) (s : WatchState) (trace : List WatchInput)
    (o : WatchOutcome)
    (h : runWatch group appName version specReplicas s trace = some o) :
    (o.stopCalledFlag = true ↔ o.reason = TermReason.complete) ∧
      o.cleanupCalledFlag = true := by
  induction trace generalizing s with
  | nil => simp [runWatch] at h
  | cons i rest ih =>
    unfold runWatch at h
    cases hw : watchIter group appName version specReplicas s i.pods i.ev i.getResult with
    | cont s2 =>
      rw [hw] at h
      exact ih s2 h
    | done o2 =>
      rw [hw] at h
      injection h with h2
      subst h2
      exact watchIter_done_shape _ _ _ _ _ _ _ _ _ hw

/-- C10 witness: a one-iteration trace from an already-complete status ends
with stop invoked and cleanup run. -/
theorem runWatch_stop_only_on_complete_witness :
    (watchComplete.stopCalledFlag = true ↔ watchComplete.reason = TermReason.complete) ∧
      watchComplete.cleanupCalledFlag = true :=
  runWatch_stop_only_on_complete "theketch.io" "sample" 1 3 ⟨⟨3, 0, 3, []⟩, false⟩
    [⟨some [], SelectEvent.pollTick, some ⟨3, 0, 3, []⟩⟩] watchComplete (by decide)

/-! ## Claim C3: framework resolution and quota enforcement -/

/-- Characterisation of the quota guard at line 250. -/
theorem quotaBlocked_eq_true_iff (f : FrameworkData) (appName : String) :
    quotaBlocked f appName = true ↔
      (hasApp f appName = false ∧
        ∃ q, f.quota = some q ∧ q ≠ -1 ∧ (f.apps.length : Int) ≥ q) := by
  unfold quotaBlocked
  cases hq : f.quota with
  | none => simp
  | some q =>
    simp only [Bool.and_eq_true, Bool.not_eq_true', decide_eq_true_eq, Option.some.injEq]
    constructor
    · rintro ⟨h1, h2, h3⟩
      exact ⟨h1, q, rfl, by simpa using h3, h2⟩
    · rintro ⟨h1, q2, hq2, hne, hge⟩
      cases hq2
      exact ⟨h1, hge, by simpa using hne⟩

/-- C3: with the scheme reference construction and the chart-template read
succeeding, the framework-resolution prefix of reconcile fails with a
ReferenceError-class error exactly when the framework is missing, is not
linked to a namespace, or the app is not yet a member and its admission would
exceed a set, non-sentinel quota; an already-member app never fails the quota
check whatever the member count. -/
theorem resolveFramework_referenceError_iff (appName : String)
    (fw : Option FrameworkData) (refOk tplOk : Bool)
    (href : refOk = true) (htpl : tplOk = true) :
    (∃ e, resolveFramework appName fw refOk tplOk = some e ∧ isReferenceError e = true) ↔
      (fw = none ∨ ∃ f, fw = some f ∧
        (f.namespaceLinked = false ∨
          (hasApp f appName = false ∧
            ∃ q, f.quota = some q ∧ q ≠ -1 ∧ (f.apps.length : Int) ≥ q))) := by
  subst href htpl
  cases fw with
  | none => simp [resolveFramework, isReferenceError]
  | some f =>
    have key : (∃ e, resolveFramework appName (some f) true true = some e ∧
          isReferenceError e = true) ↔
        (f.namespaceLinked = false ∨ quotaBlocked f appName = true) := by
      by_cases hns : f.namespaceLinked = true
      · by_cases hqb : quotaBlocked f appName = true
        · simp [resolveFramework, hns, hqb, isReferenceError]
        · simp [resolveFramework, hns, hqb, isReferenceError]
      · have hns2 : f.namespaceLinked = false := by simpa using hns
        simp [resolveFramework, hns2, isReferenceError]
    rw [key, quotaBlocked_eq_true_iff]
    simp

/-- C3 witness: a framework with quota 2 and two members rejects a third
non-member app with a ReferenceError-class error. -/
theorem resolveFramework_referenceError_iff_witness :
    ∃ e, resolveFramework "third" (some ⟨"demo", true, ["a", "b"], some 2⟩) true true =
        some e ∧ isReferenceError e = true :=
  (resolveFramework_referenceError_iff "third" (some ⟨"demo", true, ["a", "b"], some 2⟩)
    true true rfl rfl).mpr
    (Or.inr ⟨⟨"demo", true, ["a", "b"], some 2⟩, rfl, Or.inr (by decide)⟩)

/-! ## Claim C4: canary rollback on timeout -/

/-- The shared tail of the canary block does not change an app whose canary
is inactive and keeps the persisted flag. -/
theorem canaryTail_app_of_inactive (app : App) (p hpaOk fu : Bool)
    (h : app.canary.active = false) :
    (canaryTail app p hpaOk fu).app = app ∧
      (canaryTail app p hpaOk fu).rollbackPersisted = p := by
  unfold canaryTail doCanary
  by_cases hh : hpaOk <;> by_cases hf : fu <;> simp [hh, hf, h]

/-- C4: for an app with an active canary and at least two deployments whose
canary health probe fails, one pass of the canary block rolls back once the
timeout since the canary start has expired: the canary deployment is dropped,
the canary spec is reset to inactive, and the change is persisted by the app
Update; while the timeout has not expired the block instead returns the
transient converging error with the retry flag and no state change. -/
theorem canaryStep_rollback_on_timeout (group : String) (reconcileTimeout : Int)
    (app : App) (pods : Option (List Pod)) (now : Int) (hpaOk finalUpdateOk : Bool)
    (hact : app.canary.active = true)
    (hlen : 2 ≤ app.deployments.length)
    (hhealth : (checkPodStatus group app.name
        (((app.deployments.get? 1).map DeploymentSpec.version).getD 0) false
        pods).isSome = true) :
    (timeoutExpired reconcileTimeout app.canary.started now = true →
      (canaryStep group reconcileTimeout app pods now true hpaOk finalUpdateOk).app =
          doRollback app ∧
      (canaryStep group reconcileTimeout app pods now true hpaOk finalUpdateOk).app.canary.active =
          false ∧
      (canaryStep group reconcileTimeout app pods now true hpaOk finalUpdateOk).app.deployments =
          app.deployments.dropLast ∧
      (canaryStep group reconcileTimeout app pods now true hpaOk
          finalUpdateOk).rollbackPersisted = true) ∧
    (timeoutExpired reconcileTimeout app.canary.started now = false →
      canaryStep group reconcileTimeout app pods now true hpaOk finalUpdateOk =
        ⟨app, some RecErr.stillConverging, true, false⟩) := by
  obtain ⟨e, he⟩ := Option.isSome_iff_exists.mp hhealth
  have hinact : (doRollback app).canary.active = false := rfl
  have htl := canaryTail_app_of_inactive (doRollback app) true hpaOk finalUpdateOk hinact
  constructor
  · intro hexp
    unfold canaryStep
    rw [if_neg (by omega), he, if_neg (by simp [hexp]), if_neg (by simp)]
    refine ⟨htl.1, ?_, ?_, htl.2⟩
    · rw [htl.1]; exact hinact
    · rw [htl.1]; exact rfl
  · intro hexp
    unfold canaryStep
    rw [if_neg (by omega), he, if_pos (by simp [hexp])]

/-- C4 witness: a two-deployment app with an expired canary start and a
pending (hence unhealthy) canary pod ends the pass with the canary inactive,
the canary deployment dropped, and the rollback persisted. -/
theorem canaryStep_rollback_on_timeout_witness :
    (canaryStep "theketch.io" 10 ⟨"sample", [⟨1⟩, ⟨2⟩], ⟨true, 0, 0, 0⟩⟩
        (some [⟨PodPhase.pending, []⟩]) 20 true true true).app.canary.active = false ∧
    (canaryStep "theketch.io" 10 ⟨"sample", [⟨1⟩, ⟨2⟩], ⟨true, 0, 0, 0⟩⟩
        (some [⟨PodPhase.pending, []⟩]) 20 true true true).app.deployments = [⟨1⟩] ∧
    (canaryStep "theketch.io" 10 ⟨"sample", [⟨1⟩, ⟨2⟩], ⟨true, 0, 0, 0⟩⟩
        (some [⟨PodPhase.pending, []⟩]) 20 true true true).rollbackPersisted = true := by
  have h := (canaryStep_rollback_on_timeout "theketch.io" 10
    ⟨"sample", [⟨1⟩, ⟨2⟩], ⟨true, 0, 0, 0⟩⟩ (some [⟨PodPhase.pending, []⟩]) 20 true true
    (by decide) (by decide) (by decide)).1 (by decide)
  exact ⟨h.2.1, by rw [h.2.2.1]; decide, h.2.2.2⟩

/-! ## Claim C5: invalid canary state resets the spec and skips the pass -/

/-- C5: an app whose canary spec is active but which has at most one
deployment makes the pass fail with the no-canary-deployment error; the
canary spec is reset to the empty inactive value as a side effect, the
deployment list is untouched, no helm chart is applied and no canary
advancement happens in that pass. -/
theorem reconcileDeploy_invalid_canary_resets (group : String) (reconcileTimeout : Int)
    (app : App) (pods : Option (List Pod)) (now : Int)
    (rollbackUpdateOk hpaOk finalUpdateOk chartOk : Bool)
    (hact : app.canary.active = true)
    (hlen : app.deployments.length ≤ 1) :
    reconcileDeploy group reconcileTimeout app pods now rollbackUpdateOk hpaOk
        finalUpdateOk chartOk =
      ⟨{ app with canary := {} }, some RecErr.noCanaryDeployment, false, false⟩ := by
  unfold reconcileDeploy canaryStep
  rw [if_pos hact, if_pos hlen]

/-- C5 witness: the theorem applied to a one-deployment app with an active
canary spec. -/
theorem reconcileDeploy_invalid_canary_resets_witness :
    reconcileDeploy "theketch.io" 10 ⟨"sample", [⟨1⟩], ⟨true, 0, 5, 2⟩⟩ (some []) 20
        true true true true =
      ⟨⟨"sample", [⟨1⟩], {}⟩, some RecErr.noCanaryDeployment, false, false⟩ :=
  reconcileDeploy_invalid_canary_resets "theketch.io" 10 ⟨"sample", [⟨1⟩], ⟨true, 0, 5, 2⟩⟩
    (some []) 20 true true true true (by decide) (by decide)

/-! ## Claim C6: conflict handling in the outer Reconcile -/

/-- C6 counterexample: a pass whose inner reconcile succeeds and whose final
status Update fails with a Conflict ends with that conflict as its error,
yet a user-visible event (the Normal outcome event, emitted before the
Update) was produced, so a conflict pass is not event-free as claimed. -/
theorem reconcileOuter_event_despite_update_conflict :
    isConflictDirect [ErrTag.conflict] = true ∧
    (reconcileOuter none (some [ErrTag.conflict])).returnedErr = some [ErrTag.conflict] ∧
    (reconcileOuter none (some [ErrTag.conflict])).events ≠ [] := by decide

/-- C6 (amended): a Conflict anywhere in the inner reconcile error chain ends
the pass with no event and no condition write; a Conflict from the final
status Update adds no event and no condition change beyond the single outcome
event and condition already produced for the inner result; a non-conflict
inner failure emits exactly one Warning outcome event and sets the Scheduled
condition to False carrying the error, and a non-conflict status-update
failure after it emits exactly one additional Warning event. -/
theorem reconcileOuter_conflict_handling :
    (∀ (e : ErrChain) (u : Option ErrChain), isConflictError e = true →
        reconcileOuter (some e) u = ⟨[], none, some e⟩) ∧
    (∀ (inner : Option ErrChain) (ue : ErrChain), isConflictDirect ue = true →
        (reconcileOuter inner (some ue)).events = (reconcileOuter inner none).events ∧
        (reconcileOuter inner (some ue)).condition = (reconcileOuter inner none).condition) ∧
    (∀ e : ErrChain, isConflictError e = false →
        (reconcileOuter (some e) none).events = [EvKind.warningEv] ∧
        (reconcileOuter (some e) none).condition = some (false, some e)) ∧
    (∀ (e ue : ErrChain), isConflictError e = false → isConflictDirect ue = false →
        (reconcileOuter (some e) (some ue)).events = [EvKind.warningEv, EvKind.warningEv]) := by
  refine ⟨?_, ?_, ?_, ?_⟩
  · intro e u h
    cases u with
    | none => simp [reconcileOuter, h]
    | some ue => simp [reconcileOuter, h]
  · intro inner ue h
    cases inner with
    | none => simp [reconcileOuter, h]
    | some e =>
      by_cases hc : isConflictError e = true
      · simp [reconcileOuter, h, hc]
      · simp only [Bool.not_eq_true] at hc
        simp [reconcileOuter, h, hc]
  · intro e h
    simp [reconcileOuter, h]
  · intro e ue h hu
    simp [reconcileOuter, h, hu]

/-- C6 witness: the amended theorem applied to a directly-conflicting inner
error chain. -/
theorem reconcileOuter_conflict_handling_witness :
    reconcileOuter (some [ErrTag.conflict]) none = ⟨[], none, some [ErrTag.conflict]⟩ :=
  reconcileOuter_conflict_handling.1 [ErrTag.conflict] none (by decide)

/-! ## Claim C7: the delete path and the finalizer -/

/-- C7 counterexample: with an owning framework, the uninstall annotation set,
a working helm factory and a working member-list patch, a failing DeleteChart
call makes the delete path return its error with the finalizer still in place
and the member bookkeeping untouched, instead of proceeding to finalizer
removal as claimed. -/
theorem deleteChart_uninstall_failure_keeps_finalizer :
    deleteChart "sample" (some [⟨"demo", true, ["sample"], none⟩]) true true false true true =
      ⟨false, false, false, some DeleteErr.deleteChartError⟩ := by decide

/-- C7 (amended): every failing step of the delete path (framework list,
helm client construction, chart uninstall, member-list patch, final update)
returns its error without removing the finalizer; the finalizer removal is
persisted exactly when the pass returns no error, and the path is idempotent
so a retried pass can still complete the deletion. -/
theorem deleteChart_finalizer_iff_no_error (appName : String)
    (frameworks : Option (List FrameworkData))
    (uninstallWanted helmOk deleteOk patchOk updateOk : Bool) :
    (deleteChart appName frameworks uninstallWanted helmOk deleteOk patchOk
        updateOk).finalizerRemoved = true ↔
      (deleteChart appName frameworks uninstallWanted helmOk deleteOk patchOk
        updateOk).err = none := by
  unfold deleteChart
  cases frameworks with
  | none => simp
  | some fs =>
    cases hf : fs.find? (fun f => hasApp f appName) with
    | none => split_ifs <;> simp [hf]
    | some f => split_ifs <;> simp [hf]

end Ketch
